import Mathlib

/-!
# EventFlow — verification of the natural-language specification

A shallow embedding, in Lean 4, of the active code of `src/chatbot.py`
(the EventFlow FastAPI service, version 2.1).  Python strings are modelled
as `String` / `List Char`, Python dicts (which preserve insertion order and
have unique keys) as association lists `List (String × String)` or
`List (String × Json)`, and parsed JSON values as the inductive type `Json`.
The outbound HTTP layer (`httpx`) and the inner-JSON decoder (`json.loads`)
are external libraries and are passed as explicit function parameters; the
serializer `json.dumps` is modelled concretely because the code's observable
output depends on it.
-/

namespace EventFlow

/-! ## Python text primitives

`pyStartsWith n h` models "`h` begins with `n`"; `pySubstr n h` models the
Python membership test `n in h` on strings (contiguous substring).
`pyLower` models `str.lower()` on the ASCII range (all keywords scanned by
the program are ASCII).  `pyJoinStr sep l` models `sep.join(l)`. -/

def pyStartsWith : List Char → List Char → Bool
  | [], _ => true
  | _ :: _, [] => false
  | a :: as, b :: bs => a == b && pyStartsWith as bs

def pySubstr (needle : List Char) : List Char → Bool
  | [] => needle.isEmpty
  | c :: rest => pyStartsWith needle (c :: rest) || pySubstr needle rest

def pyLower (s : List Char) : List Char := s.map Char.toLower

def pyJoinStr (sep : String) : List String → String
  | [] => ""
  | [s] => s
  | s :: rest => s ++ sep ++ pyJoinStr sep rest

/-- Python `str.strip()` with the default whitespace set (ASCII portion). -/
def pyIsSpace (c : Char) : Bool :=
  c == ' ' || c == '\t' || c == '\n' || c == '\r' ||
  c == Char.ofNat 11 || c == Char.ofNat 12

def pyStrip (s : List Char) : List Char :=
  ((s.dropWhile pyIsSpace).reverse.dropWhile pyIsSpace).reverse

/-- Python `any(char.isdigit() for char in s)` (ASCII digits). -/
def pyHasDigit (s : List Char) : Bool := s.any Char.isDigit

/-! ## Sufficiency heuristic (`validate_information_sufficiency`)

`fullConversation` is `" ".join(chat_history.values()).lower()`, at the
character-list level.  The chat history is an association list in dict
insertion order (Python dict keys are unique and `.values()` iterates in
insertion order). -/

def fullConversation (chat_history : List (String × String)) : List Char :=
  pyLower (pyJoinStr " " (chat_history.map (·.2))).data

/-- `any(keyword in full_conversation for keyword in kws)`. -/
def kwAny (kws : List String) (full : List Char) : Bool :=
  kws.any (fun kw => pySubstr kw.data full)

def event_keywords : List String :=
  ["event", "party", "wedding", "birthday", "bash", "ceremony", "meeting",
   "corporate", "get-together", "dinner", "lunch", "anniversary"]

def date_keywords : List String :=
  ["jan", "feb", "mar", "apr", "may", "jun", "jul", "aug", "sep", "oct",
   "nov", "dec", "month", "year", "week", "tomorrow", "weekend", "night",
   "day", "2024", "2025"]

def guest_keywords : List String :=
  ["guest", "people", "pax", "friends", "family", "crowd", "attendee"]

def budget_keywords : List String :=
  ["budget", "cost", "price", "dollar", "usd", "rupees", "rs", "k", "$",
   "cheap", "expensive", "afford", "spending"]

def venue_keywords : List String :=
  ["venue", "place", "hall", "hotel", "resort", "home", "house", "garden",
   "outdoor", "indoor", "restaurant", "cafe", "beach", "bar"]

/-- The `missing_items` list accumulated by the body of
`validate_information_sufficiency`: each of the five category checks, with
its condition verbatim from the source and in program order, contributes
its item (the in-place `append` accumulation is written as the
concatenation of the five conditional contributions).  The date check is
the source's nested fallback: a date keyword, or else any digit. -/
def missingOf (full_conversation : List Char) : List String :=
  (if kwAny event_keywords full_conversation then [] else ["event type"]) ++
  (if kwAny date_keywords full_conversation then []
   else if pyHasDigit full_conversation then []
   else ["date/time"]) ++
  (if kwAny guest_keywords full_conversation || pyHasDigit full_conversation
   then [] else ["guest count"]) ++
  (if kwAny budget_keywords full_conversation then [] else ["budget"]) ++
  (if kwAny venue_keywords full_conversation then [] else ["venue"])

/-- `validate_information_sufficiency`: compute the missing items, then the
relaxed policy of the source: `critical_missing` keeps the items that are
in `["event type"]`; return `False` iff it is non-empty. -/
def validate_information_sufficiency
    (chat_history : List (String × String)) : Bool × List String :=
  let full_conversation := fullConversation chat_history
  let missing_items := missingOf full_conversation
  let critical_missing :=
    missing_items.filter (fun item => (["event type"] : List String).contains item)
  if critical_missing.length > 0 then (false, missing_items)
  else (true, missing_items)

/-- The per-category presence flags, as scanned by the source. -/
def eventOk (f : List Char) : Bool := kwAny event_keywords f
def dateOk (f : List Char) : Bool := kwAny date_keywords f || pyHasDigit f
def guestOk (f : List Char) : Bool := kwAny guest_keywords f || pyHasDigit f
def budgetOk (f : List Char) : Bool := kwAny budget_keywords f
def venueOk (f : List Char) : Bool := kwAny venue_keywords f

theorem mem_missingOf (f : List Char) (x : String) :
    x ∈ missingOf f ↔
      (eventOk f = false ∧ x = "event type") ∨
      (dateOk f = false ∧ x = "date/time") ∨
      (guestOk f = false ∧ x = "guest count") ∨
      (budgetOk f = false ∧ x = "budget") ∨
      (venueOk f = false ∧ x = "venue") := by
  unfold missingOf eventOk dateOk guestOk budgetOk venueOk
  cases h1 : kwAny event_keywords f <;> cases h2 : kwAny date_keywords f <;>
    cases h3 : pyHasDigit f <;> cases h4 : kwAny guest_keywords f <;>
    cases h5 : kwAny budget_keywords f <;> cases h6 : kwAny venue_keywords f <;>
    simp

theorem validate_snd (h : List (String × String)) :
    (validate_information_sufficiency h).2 = missingOf (fullConversation h) := by
  unfold validate_information_sufficiency
  dsimp only
  split <;> rfl

theorem critical_iff (m : List String) :
    (m.filter (fun item => (["event type"] : List String).contains item)).length > 0 ↔
      "event type" ∈ m := by
  constructor
  · intro hgt
    have hne : m.filter (fun item => (["event type"] : List String).contains item) ≠ [] := by
      intro hnil
      rw [hnil] at hgt
      simp at hgt
    rw [Ne, List.filter_eq_nil_iff] at hne
    push_neg at hne
    obtain ⟨a, ham, hpa⟩ := hne
    have : a = "event type" := by
      simpa using hpa
    rwa [this] at ham
  · intro hm
    have : "event type" ∈
        m.filter (fun item => (["event type"] : List String).contains item) :=
      List.mem_filter.mpr ⟨hm, by simp⟩
    exact List.length_pos.mpr (List.ne_nil_of_mem this)

/-! ## Monotonicity of the text scans under appended text -/

theorem pyStartsWith_extend (n : List Char) :
    ∀ h r : List Char, pyStartsWith n h = true → pyStartsWith n (h ++ r) = true := by
  induction n with
  | nil => intro h r _; rfl
  | cons a as ih =>
    intro h r hn
    cases h with
    | nil => simp [pyStartsWith] at hn
    | cons b bs =>
      simp only [pyStartsWith, Bool.and_eq_true] at hn
      simp only [List.cons_append, pyStartsWith, Bool.and_eq_true]
      exact ⟨hn.1, ih bs r hn.2⟩

theorem pySubstr_nil_left (s : List Char) : pySubstr [] s = true := by
  cases s with
  | nil => rfl
  | cons c cs => rfl

theorem pySubstr_extend (n s r : List Char) (hs : pySubstr n s = true) :
    pySubstr n (s ++ r) = true := by
  induction s with
  | nil =>
    have hn : n = [] := by
      simpa [pySubstr, List.isEmpty_iff] using hs
    subst hn
    simpa using pySubstr_nil_left r
  | cons c cs ih =>
    simp only [pySubstr, Bool.or_eq_true] at hs
    simp only [List.cons_append, pySubstr, Bool.or_eq_true]
    rcases hs with h1 | h2
    · exact Or.inl (by
        have := pyStartsWith_extend n (c :: cs) r h1
        simpa using this)
    · exact Or.inr (ih h2)

theorem kwAny_extend (kws : List String) (s r : List Char)
    (hs : kwAny kws s = true) : kwAny kws (s ++ r) = true := by
  simp only [kwAny, List.any_eq_true] at hs ⊢
  obtain ⟨kw, hkw, hsub⟩ := hs
  exact ⟨kw, hkw, pySubstr_extend kw.data s r hsub⟩

theorem pyHasDigit_extend (s r : List Char) (hs : pyHasDigit s = true) :
    pyHasDigit (s ++ r) = true := by
  simp only [pyHasDigit, List.any_append, Bool.or_eq_true]
  exact Or.inl hs

/-- Contrapositive form used below: a flag that is monotone under appended
text and false on the extended text was already false on the original. -/
theorem flag_false_of_extend_false {g : List Char → Bool}
    (mono : ∀ f r, g f = true → g (f ++ r) = true)
    {f r : List Char} (hfr : g (f ++ r) = false) : g f = false := by
  cases hf : g f
  · rfl
  · rw [mono f r hf] at hfr
    exact hfr

theorem eventOk_extend (f r : List Char) (hf : eventOk f = true) :
    eventOk (f ++ r) = true := kwAny_extend _ _ _ hf

theorem dateOk_extend (f r : List Char) (hf : dateOk f = true) :
    dateOk (f ++ r) = true := by
  simp only [dateOk, Bool.or_eq_true] at hf ⊢
  rcases hf with h | h
  · exact Or.inl (kwAny_extend _ _ _ h)
  · exact Or.inr (pyHasDigit_extend _ _ h)

theorem guestOk_extend (f r : List Char) (hf : guestOk f = true) :
    guestOk (f ++ r) = true := by
  simp only [guestOk, Bool.or_eq_true] at hf ⊢
  rcases hf with h | h
  · exact Or.inl (kwAny_extend _ _ _ h)
  · exact Or.inr (pyHasDigit_extend _ _ h)

theorem budgetOk_extend (f r : List Char) (hf : budgetOk f = true) :
    budgetOk (f ++ r) = true := kwAny_extend _ _ _ hf

theorem venueOk_extend (f r : List Char) (hf : venueOk f = true) :
    venueOk (f ++ r) = true := kwAny_extend _ _ _ hf

theorem data_append (s t : String) : (s ++ t).data = s.data ++ t.data := by
  cases s
  cases t
  rfl

theorem strOfData {s t : String} (h : s.data = t.data) : s = t := by
  cases s
  cases t
  cases h
  rfl

theorem string_append_assoc (a b c : String) : a ++ b ++ c = a ++ (b ++ c) := by
  apply strOfData
  rw [data_append, data_append, data_append, data_append, List.append_assoc]

/-- Appending one more value to the joined conversation only appends text:
`sep.join(l + [v])` extends `sep.join(l)` on the right. -/
theorem pyJoinStr_snoc (sep : String) (l : List String) (v : String) :
    ∃ r : String, pyJoinStr sep (l ++ [v]) = pyJoinStr sep l ++ r := by
  induction l with
  | nil => exact ⟨v, rfl⟩
  | cons s ss ih =>
    cases ss with
    | nil => exact ⟨sep ++ v, by simp [pyJoinStr, string_append_assoc]⟩
    | cons s2 ss2 =>
      obtain ⟨r, hr⟩ := ih
      refine ⟨r, ?_⟩
      show pyJoinStr sep (s :: ((s2 :: ss2) ++ [v])) = _
      rw [show pyJoinStr sep (s :: ((s2 :: ss2) ++ [v]))
            = s ++ sep ++ pyJoinStr sep ((s2 :: ss2) ++ [v]) from rfl]
      rw [hr]
      rw [show pyJoinStr sep (s :: s2 :: ss2)
            = s ++ sep ++ pyJoinStr sep (s2 :: ss2) from rfl]
      rw [string_append_assoc (s ++ sep) (pyJoinStr sep (s2 :: ss2)) r]

theorem fullConversation_snoc (h : List (String × String)) (t : String × String) :
    ∃ r, fullConversation (h ++ [t]) = fullConversation h ++ r := by
  obtain ⟨r, hr⟩ := pyJoinStr_snoc " " (h.map (·.2)) t.2
  refine ⟨pyLower r.data, ?_⟩
  unfold fullConversation
  rw [List.map_append]
  simp only [List.map_cons, List.map_nil]
  rw [hr, data_append]
  unfold pyLower
  rw [List.map_append]

/-! ## Claim theorems on the sufficiency heuristic -/

/-- C8: the sufficiency heuristic, applied to an empty chat history, returns
`ready = false` with all five categories missing, in program order. -/
theorem empty_history_all_missing :
    validate_information_sufficiency [] =
      (false, ["event type", "date/time", "guest count", "budget", "venue"]) := by
  decide

theorem validate_ready_iff (h : List (String × String)) :
    (validate_information_sufficiency h).1 = true ↔
      "event type" ∉ (validate_information_sufficiency h).2 := by
  rw [validate_snd]
  unfold validate_information_sufficiency
  dsimp only
  split
  · rename_i hgt
    have hmem := (critical_iff _).mp hgt
    simp [hmem]
  · rename_i hgt
    have hmem : "event type" ∉ missingOf (fullConversation h) :=
      fun hm => hgt ((critical_iff _).mpr hm)
    simp [hmem]

/-- C3: under the relaxed policy of the source, the `ready` flag is true
exactly when `"event type"` is not among the missing categories; all other
categories may be missing without making it false. -/
theorem ready_iff_event_type_present (h : List (String × String)) :
    (validate_information_sufficiency h).1 = true ↔
      "event type" ∉ (validate_information_sufficiency h).2 :=
  validate_ready_iff h

/-- C1 as stated is false: the source marks `guest count` missing only when
*neither* a guest-word *nor* a digit is present (an OR), not when the two
are not jointly present (an AND).  On the history `{"1": "100"}` the text
has a digit but no guest-word, so the claim predicts `guest count` missing
while the code does not report it. -/
theorem guest_count_and_rule_refuted :
    ¬ (("guest count" ∈ (validate_information_sufficiency [("1", "100")]).2) ↔
        ¬ (pyHasDigit (fullConversation [("1", "100")]) = true ∧
           kwAny guest_keywords (fullConversation [("1", "100")]) = true)) := by
  decide

/-- C1 (amended): `guest count` is among the missing categories exactly when
the lowercased joined transcript contains neither a guest-word from the
fixed guest keyword list nor a decimal digit. -/
theorem guest_count_missing_iff (h : List (String × String)) :
    "guest count" ∈ (validate_information_sufficiency h).2 ↔
      ¬ (kwAny guest_keywords (fullConversation h) = true ∨
         pyHasDigit (fullConversation h) = true) := by
  rw [validate_snd, mem_missingOf]
  simp [eventOk, dateOk, guestOk, budgetOk, venueOk]

/-- C7: the heuristic is monotone — appending a turn to the history can only
shrink the set of missing categories: every category missing for the
extended history was already missing for the original one. -/
theorem missing_monotone (h : List (String × String)) (t : String × String) :
    ∀ x ∈ (validate_information_sufficiency (h ++ [t])).2,
      x ∈ (validate_information_sufficiency h).2 := by
  intro x hx
  rw [validate_snd] at hx ⊢
  obtain ⟨r, hr⟩ := fullConversation_snoc h t
  rw [hr, mem_missingOf] at hx
  rw [mem_missingOf]
  rcases hx with ⟨hc, hx⟩ | ⟨hc, hx⟩ | ⟨hc, hx⟩ | ⟨hc, hx⟩ | ⟨hc, hx⟩
  · exact Or.inl ⟨flag_false_of_extend_false eventOk_extend hc, hx⟩
  · exact Or.inr (Or.inl ⟨flag_false_of_extend_false dateOk_extend hc, hx⟩)
  · exact Or.inr (Or.inr (Or.inl ⟨flag_false_of_extend_false guestOk_extend hc, hx⟩))
  · exact Or.inr (Or.inr (Or.inr (Or.inl
      ⟨flag_false_of_extend_false budgetOk_extend hc, hx⟩)))
  · exact Or.inr (Or.inr (Or.inr (Or.inr
      ⟨flag_false_of_extend_false venueOk_extend hc, hx⟩)))

/-- Witness for C7 at a concrete input: the history `{"1": "hello"}` has
`budget` missing, and so does its sub-history `{}`. -/
theorem missing_monotone_witness :
    "budget" ∈ (validate_information_sufficiency []).2 :=
  missing_monotone [] ("1", "hello") "budget" (by decide)

/-! ## JSON values

Parsed JSON values, as produced by `json.loads`.  Numbers are modelled as
integers (no claim under verification involves a fractional literal).
Python dicts preserve insertion order and have unique keys; an object is an
association list. -/

inductive Json where
  | null : Json
  | bool : Bool → Json
  | num : Int → Json
  | str : String → Json
  | arr : List Json → Json
  | obj : List (String × Json) → Json

/-- Python truthiness (`bool(x)`) on JSON values: `None`, `False`, `0`, the
empty string, the empty list and the empty dict are falsy. -/
def Json.truthy : Json → Bool
  | .null => false
  | .bool b => b
  | .num n => n != 0
  | .str s => s != ""
  | .arr xs => !xs.isEmpty
  | .obj fs => !fs.isEmpty

/-! ### `json.dumps` with default options -/

def hexDigit (n : Nat) : Char :=
  if n < 10 then Char.ofNat (48 + n) else Char.ofNat (87 + n)

def hex4 (n : Nat) : String :=
  String.mk [hexDigit (n / 4096 % 16), hexDigit (n / 256 % 16),
             hexDigit (n / 16 % 16), hexDigit (n % 16)]

/-- One character of a JSON string literal under `json.dumps` defaults
(`ensure_ascii=True`): the two-character escapes, `\\uXXXX` for other
control or non-ASCII characters (surrogate pairs above the BMP), and the
character itself otherwise. -/
def jsonEscapeChar (c : Char) : String :=
  if c = '"' then "\\\""
  else if c = '\\' then "\\\\"
  else if c = '\n' then "\\n"
  else if c = '\t' then "\\t"
  else if c = '\r' then "\\r"
  else if c = Char.ofNat 8 then "\\b"
  else if c = Char.ofNat 12 then "\\f"
  else if c.toNat < 32 then "\\u" ++ hex4 c.toNat
  else if c.toNat < 127 then String.singleton c
  else if c.toNat < 65536 then "\\u" ++ hex4 c.toNat
  else
    let m := c.toNat - 65536
    "\\u" ++ hex4 (55296 + m / 1024) ++ "\\u" ++ hex4 (56320 + m % 1024)

def jsonQuote (s : String) : String :=
  "\"" ++ String.join (s.data.map jsonEscapeChar) ++ "\""

mutual

/-- `json.dumps` with the default separators `", "` and `": "`. -/
def json_dumps : Json → String
  | .null => "null"
  | .bool true => "true"
  | .bool false => "false"
  | .num n => toString n
  | .str s => jsonQuote s
  | .arr xs => "[" ++ dumpsElems xs ++ "]"
  | .obj fs => "\x7b" ++ dumpsFields fs ++ "\x7d"

def dumpsElems : List Json → String
  | [] => ""
  | [x] => json_dumps x
  | x :: y :: xs => json_dumps x ++ ", " ++ dumpsElems (y :: xs)

def dumpsFields : List (String × Json) → String
  | [] => ""
  | [(k, v)] => jsonQuote k ++ ": " ++ json_dumps v
  | (k, v) :: f :: fs =>
      jsonQuote k ++ ": " ++ json_dumps v ++ ", " ++ dumpsFields (f :: fs)

end

/-! ## Response shaper of `/generate-flowchart` (`generate_flowchart_endpoint`)

`FlowchartResponse` mirrors the pydantic response model; the `error` field
carries the JSON value the code puts there (the code's own fallback is the
string `"Failed to generate plan."`; pydantic would additionally insist the
value is a string, which every claim under verification respects). -/

structure FlowchartResponse where
  updated_plan_json : Option String
  error : Option Json

/-- The condition of the endpoint's first branch,
`"error" in ai_data and ai_data["error"]`. -/
def errorTruthy (ai_data : List (String × Json)) : Bool :=
  match ai_data.lookup "error" with
  | some e => e.truthy
  | none => false

/-- The three-way branch at the tail of `generate_flowchart_endpoint`,
applied to the parsed provider object `ai_data`. -/
def shape_flowchart (ai_data : List (String × Json)) : FlowchartResponse :=
  if errorTruthy ai_data then
    ⟨none, ai_data.lookup "error"⟩
  else
    match ai_data.lookup "updated_plan_json" with
    | some v => ⟨some (json_dumps v), none⟩
    | none => ⟨none, some (Json.str "Failed to generate plan.")⟩

/-- First outcome of the shaper: the object holds a truthy `error` field. -/
def planErrCase (d : List (String × Json)) : Prop :=
  ∃ e, d.lookup "error" = some e ∧ e.truthy = true

/-- Second outcome: no truthy `error`, but an `updated_plan_json` field. -/
def planPlanCase (d : List (String × Json)) : Prop :=
  ¬ planErrCase d ∧ ∃ v, d.lookup "updated_plan_json" = some v

/-- Third outcome: neither a truthy `error` nor an `updated_plan_json`. -/
def planFallCase (d : List (String × Json)) : Prop :=
  ¬ planErrCase d ∧ d.lookup "updated_plan_json" = none

theorem errorTruthy_iff (d : List (String × Json)) :
    errorTruthy d = true ↔ planErrCase d := by
  unfold errorTruthy planErrCase
  cases hl : d.lookup "error" with
  | none => simp
  | some e => simp

/-- C2: on every parsed provider object, the plan-mode response shaper is an
exhaustive, mutually exclusive three-way branch: a truthy `error` field is
returned with a null plan; otherwise a present `updated_plan_json` field is
serialized to a string with a null error; otherwise the fixed, non-empty
fallback error is returned.  Exactly one of the three cases applies. -/
theorem shaper_three_way (d : List (String × Json)) :
    ((planErrCase d ∧ ¬ planPlanCase d ∧ ¬ planFallCase d) ∨
     (¬ planErrCase d ∧ planPlanCase d ∧ ¬ planFallCase d) ∨
     (¬ planErrCase d ∧ ¬ planPlanCase d ∧ planFallCase d)) ∧
    (planErrCase d →
      ∃ e, d.lookup "error" = some e ∧ e.truthy = true ∧
        shape_flowchart d = ⟨none, some e⟩) ∧
    (planPlanCase d →
      ∃ v, d.lookup "updated_plan_json" = some v ∧
        shape_flowchart d = ⟨some (json_dumps v), none⟩) ∧
    (planFallCase d →
      shape_flowchart d = ⟨none, some (Json.str "Failed to generate plan.")⟩ ∧
      "Failed to generate plan." ≠ "") := by
  refine ⟨?_, ?_, ?_, ?_⟩
  · by_cases hA : planErrCase d
    · exact Or.inl ⟨hA, fun hB => hB.1 hA, fun hC => hC.1 hA⟩
    · cases hP : d.lookup "updated_plan_json" with
      | some v =>
        refine Or.inr (Or.inl ⟨hA, ⟨hA, v, hP⟩, fun hC => ?_⟩)
        rw [hC.2] at hP
        cases hP
      | none =>
        refine Or.inr (Or.inr ⟨hA, fun hB => ?_, hA, hP⟩)
        obtain ⟨-, v, hv⟩ := hB
        rw [hP] at hv
        cases hv
  · intro hA
    obtain ⟨e, he, ht⟩ := hA
    refine ⟨e, he, ht, ?_⟩
    unfold shape_flowchart
    rw [(errorTruthy_iff d).mpr ⟨e, he, ht⟩]
    simp [he]
  · intro hB
    obtain ⟨hA, v, hv⟩ := hB
    have hfalse : errorTruthy d = false := by
      cases hb : errorTruthy d
      · rfl
      · exact absurd ((errorTruthy_iff d).mp hb) hA
    refine ⟨v, hv, ?_⟩
    unfold shape_flowchart
    rw [hfalse]
    simp [hv]
  · intro hC
    obtain ⟨hA, hP⟩ := hC
    have hfalse : errorTruthy d = false := by
      cases hb : errorTruthy d
      · rfl
      · exact absurd ((errorTruthy_iff d).mp hb) hA
    constructor
    · unfold shape_flowchart
      rw [hfalse]
      simp [hP]
    · decide

/-- Witness for C2 at a concrete input: feeding `{"error": "x"}` to the
shaper takes the error branch. -/
theorem shaper_three_way_witness :
    ∃ e, shape_flowchart [("error", Json.str "x")] = ⟨none, some e⟩ := by
  obtain ⟨-, hErr, -, -⟩ := shaper_three_way [("error", Json.str "x")]
  obtain ⟨e, -, -, hs⟩ := hErr ⟨Json.str "x", rfl, by decide⟩
  exact ⟨e, hs⟩

/-- C9 as stated is false: the fallback error string of the active code is
`"Failed to generate plan."`, not
`"Unable to generate plan. Please provide more details."`. -/
theorem fallback_string_refuted :
    shape_flowchart [] = ⟨none, some (Json.str "Failed to generate plan.")⟩ ∧
    "Failed to generate plan." ≠ "Unable to generate plan. Please provide more details." := by
  exact ⟨rfl, by decide⟩

/-- C9 (amended): when the parsed object has neither a truthy `error` field
nor an `updated_plan_json` field, the returned fallback error string is
exactly `"Failed to generate plan."`. -/
theorem fallback_string (d : List (String × Json))
    (he : errorTruthy d = false)
    (hp : d.lookup "updated_plan_json" = none) :
    shape_flowchart d = ⟨none, some (Json.str "Failed to generate plan.")⟩ := by
  unfold shape_flowchart
  rw [he, hp]
  simp

/-- Witness for C9 at the concrete input `{}`. -/
theorem fallback_string_witness :
    shape_flowchart [] = ⟨none, some (Json.str "Failed to generate plan.")⟩ :=
  fallback_string [] rfl rfl

/-- C10: a parsed object binding `updated_plan_json` to JSON `null` (with no
truthy `error` field) takes the plan branch: `json.dumps(None)` is the
four-character string `"null"`, and the `error` field of the response is
null. -/
theorem plan_null_serializes (d : List (String × Json))
    (he : errorTruthy d = false)
    (hp : d.lookup "updated_plan_json" = some Json.null) :
    shape_flowchart d = ⟨some "null", none⟩ ∧ ("null" : String).length = 4 := by
  constructor
  · unfold shape_flowchart
    rw [he, hp]
    simp [json_dumps]
  · decide

/-- Witness for C10 at the concrete input `{"updated_plan_json": null}`. -/
theorem plan_null_serializes_witness :
    shape_flowchart [("updated_plan_json", Json.null)] = ⟨some "null", none⟩ :=
  (plan_null_serializes [("updated_plan_json", Json.null)] rfl rfl).1

/-! ## Transcript normalizer (`convert_chat_history_to_gemini_format`) -/

structure GeminiPart where
  text : String
deriving DecidableEq

structure GeminiMessage where
  role : String
  parts : List GeminiPart
deriving DecidableEq

/-- Python string comparison `s <= t`: lexicographic by Unicode code
point. -/
def strLeChars : List Char → List Char → Bool
  | [], _ => true
  | _ :: _, [] => false
  | a :: as, b :: bs =>
    if a.toNat < b.toNat then true
    else if b.toNat < a.toNat then false
    else strLeChars as bs

theorem strLeChars_total : ∀ a b : List Char,
    strLeChars a b = true ∨ strLeChars b a = true := by
  intro a
  induction a with
  | nil => intro b; exact Or.inl rfl
  | cons x xs ih =>
    intro b
    cases b with
    | nil => exact Or.inr rfl
    | cons y ys =>
      simp only [strLeChars]
      rcases Nat.lt_trichotomy x.toNat y.toNat with hlt | heq | hgt
      · left
        simp [hlt]
      · rcases ih ys with h | h <;>
          simp [heq, Nat.lt_irrefl, h]
      · right
        simp [hgt]

theorem strLeChars_trans : ∀ a b c : List Char,
    strLeChars a b = true → strLeChars b c = true → strLeChars a c = true := by
  intro a
  induction a with
  | nil => intro b c _ _; rfl
  | cons x xs ih =>
    intro b c hab hbc
    cases b with
    | nil => simp [strLeChars] at hab
    | cons y ys =>
      cases c with
      | nil => simp [strLeChars] at hbc
      | cons z zs =>
        simp only [strLeChars] at hab hbc ⊢
        by_cases hxy : x.toNat < y.toNat <;> by_cases hyz : y.toNat < z.toNat
        · simp [Nat.lt_trans hxy hyz]
        · simp only [if_pos hxy] at hab
          simp only [if_neg hyz] at hbc
          by_cases hzy : z.toNat < y.toNat
          · simp [hzy] at hbc
          · have hyz' : y.toNat = z.toNat := Nat.le_antisymm
              (Nat.le_of_not_lt hzy) (Nat.le_of_not_lt hyz)
            simp [hyz' ▸ hxy]
        · simp only [if_neg hxy] at hab
          by_cases hyx : y.toNat < x.toNat
          · simp [hyx] at hab
          · have hxy' : x.toNat = y.toNat := Nat.le_antisymm
              (Nat.le_of_not_lt hyx) (Nat.le_of_not_lt hxy)
            simp [hxy' ▸ hyz]
        · simp only [if_neg hxy] at hab
          simp only [if_neg hyz] at hbc
          by_cases hyx : y.toNat < x.toNat
          · simp [hyx] at hab
          · by_cases hzy : z.toNat < y.toNat
            · simp [hzy] at hbc
            · have hxy' : x.toNat = y.toNat := Nat.le_antisymm
                (Nat.le_of_not_lt hyx) (Nat.le_of_not_lt hxy)
              have hyz' : y.toNat = z.toNat := Nat.le_antisymm
                (Nat.le_of_not_lt hzy) (Nat.le_of_not_lt hyz)
              have hxz : ¬ x.toNat < z.toNat := by omega
              have hzx : ¬ z.toNat < x.toNat := by omega
              simp only [if_neg hyx] at hab
              simp only [if_neg hzy] at hbc
              simp only [if_neg hxz, if_neg hzx]
              exact ih ys zs hab hbc

/-- The key order used by the loop: Python's `sorted` compares the string
keys code-point-lexicographically. -/
def keyLe (a b : String × String) : Prop := strLeChars a.1.data b.1.data = true

instance : DecidableRel keyLe :=
  fun a b => instDecidableEqBool (strLeChars a.1.data b.1.data) true

instance : IsTotal (String × String) keyLe := ⟨fun a b => strLeChars_total a.1.data b.1.data⟩

instance : IsTrans (String × String) keyLe :=
  ⟨fun a b c => strLeChars_trans a.1.data b.1.data c.1.data⟩

/-- The iteration order of the source's loop: Python iterates
`sorted(chat_history.keys())` and indexes the dict at each key; with the
dict's unique keys this is the entry list sorted by key (Python's sort is
stable, as is this insertion sort). -/
def sortedEntries (chat_history : List (String × String)) :
    List (String × String) :=
  chat_history.insertionSort keyLe

/-- The loop's guard `if text and text.strip():`. -/
def keepText (text : String) : Bool :=
  (!(text == "")) && (!(pyStrip text.data).isEmpty)

/-- `"model" if "ai" in key.lower() else "user"`. -/
def roleFor (key : String) : String :=
  if pySubstr "ai".data (pyLower key.data) then "model" else "user"

def convert_chat_history_to_gemini_format
    (chat_history : List (String × String)) : List GeminiMessage :=
  (sortedEntries chat_history).foldl
    (fun messages p =>
      if keepText p.2 then messages ++ [⟨roleFor p.1, [⟨p.2⟩]⟩] else messages)
    []

theorem foldl_append_filter {α β : Type} (c : α → Bool) (f : α → β)
    (l : List α) (acc : List β) :
    l.foldl (fun ms p => if c p then ms ++ [f p] else ms) acc
      = acc ++ (l.filter c).map f := by
  induction l generalizing acc with
  | nil => simp
  | cons x xs ih =>
    cases hc : c x <;>
      simp [List.foldl_cons, hc, ih, List.filter_cons]

/-- C6: on a mapping-form history the normalizer emits, in
lexicographically-sorted key order, one turn per key whose text survives the
emptiness guard; the assistant role (`"model"`) goes exactly to keys
containing `"ai"` case-insensitively, all other keys get `"user"`; and every
emitted turn's text is neither empty nor all-whitespace. -/
theorem normalizer_characterization (h : List (String × String)) :
    convert_chat_history_to_gemini_format h
        = ((sortedEntries h).filter (fun p => keepText p.2)).map
            (fun p => ⟨roleFor p.1, [⟨p.2⟩]⟩) ∧
    List.Perm (sortedEntries h) h ∧
    (sortedEntries h).Pairwise keyLe ∧
    (∀ m ∈ convert_chat_history_to_gemini_format h, ∀ part ∈ m.parts,
        part.text ≠ "" ∧ (pyStrip part.text.data).isEmpty = false) ∧
    (∀ key : String,
        (pySubstr "ai".data (pyLower key.data) = true → roleFor key = "model") ∧
        (pySubstr "ai".data (pyLower key.data) = false → roleFor key = "user")) := by
  have hchar : convert_chat_history_to_gemini_format h
      = ((sortedEntries h).filter (fun p => keepText p.2)).map
          (fun p => ⟨roleFor p.1, [⟨p.2⟩]⟩) := by
    unfold convert_chat_history_to_gemini_format
    rw [foldl_append_filter]
    simp
  refine ⟨hchar, List.perm_insertionSort _ h, ?_, ?_, ?_⟩
  · exact List.sorted_insertionSort keyLe h
  · intro m hm part hpart
    rw [hchar] at hm
    obtain ⟨p, hp, hmp⟩ := List.mem_map.mp hm
    have hkeep : keepText p.2 = true := (List.mem_filter.mp hp).2
    rw [← hmp] at hpart
    simp only [List.mem_singleton] at hpart
    subst hpart
    unfold keepText at hkeep
    simp only [Bool.and_eq_true, Bool.not_eq_true', beq_eq_false_iff_ne] at hkeep
    exact ⟨hkeep.1, hkeep.2⟩
  · intro key
    constructor
    · intro hai
      unfold roleFor
      rw [hai]
      rfl
    · intro hai
      unfold roleFor
      rw [hai]
      rfl

/-- Witness for C6 at the concrete history
`{"02_ai": "Hello", "01_user": "hi", "03_user": "  "}`: the all-whitespace
turn is dropped and the remaining turns come out in key order with the
claimed roles. -/
theorem normalizer_witness :
    ("Hello" : String) ≠ "" ∧ (pyStrip ("Hello" : String).data).isEmpty = false :=
  (normalizer_characterization
      [("02_ai", "Hello"), ("01_user", "hi"), ("03_user", "  ")]).2.2.2.1
    ⟨"model", [⟨"Hello"⟩]⟩ (by decide) ⟨"Hello"⟩ (by decide)

/-! ## Provider gateway and endpoints

The outbound HTTP call is a parameter `provider : GeminiPayload →
HttpResponse`; `HttpResponse.jsonBody = none` models a body that
`response.json()` cannot parse (an uncaught exception in the source).
`loads` is the `json.loads` applied to the candidate text.  `Except.error`
models an exception escaping to the framework (an HTTP 500). -/

def CONVERSATIONAL_SYSTEM_PROMPT : String :=
"
You are \"EventFlow,\" a concise event planning assistant.

YOUR GOAL:
Gather missing event details one by one.

CRITICAL INSTRUCTION - READ HISTORY FIRST:
Before asking a question, look at the conversation history.
- If the user has ALREADY answered a question (e.g., they already said \"Wedding\"), DO NOT ask it again.
- Move immediately to the next missing piece of information.

STRICT RULES:
1. Ask ONLY ONE question at a time.
2. Keep response under 50 words.
3. Be casual and direct.

INFORMATION CHECKLIST (In Order):
1. Event Type (Wedding, Corporate, etc.) -> Have this? Ask Date.
2. Date/Timeframe -> Have this? Ask Guests.
3. Guest Count -> Have this? Ask Budget.
4. Budget Range -> Have this? Ask Venue Preference.
5. Venue/Vibe -> Have this? Ask specific Details.

OUTPUT FORMAT:
Return ONLY a JSON object:
\x7b
  \"reply_text\": \"Your short, focused question here.\"
\x7d
"

def FLOWCHART_SYSTEM_PROMPT : String :=
"
You are \"EventFlow,\" an expert event planning system.
Analyze the conversation and create a JSON event plan.
"

/-- The `final_prompt` f-string of `get_flowchart_response`, with the
computed `prompt_modifier` interpolated. -/
def final_prompt (prompt_modifier : String) : String :=
"
    Create a detailed JSON event plan based on the conversation.
    " ++ prompt_modifier ++ "

    REQUIRED JSON STRUCTURE:
    \x7b
      \"reply_text\": \"Here is your plan...\",
      \"updated_plan_json\": \x7b
        \"event_plan\": [
          \x7b \"step\": 1, \"task\": \"...\", \"details\": \"...\", \"reasoning\": \"...\" \x7d
        ],
        \"required_vendors\": [\"...\"],
        \"suggestions\": \"...\"
      \x7d
    \x7d
    "

structure GeminiPayload where
  systemInstruction : String
  contents : List GeminiMessage
  responseMimeType : String

structure HttpResponse where
  status : Nat
  jsonBody : Option Json

def Json.getKey : Json → String → Option Json
  | .obj fs, k => fs.lookup k
  | _, _ => none

def Json.getIdx : Json → Nat → Option Json
  | .arr xs, i => xs.get? i
  | _, _ => none

def Json.asString : Json → Option String
  | .str s => some s
  | _ => none

/-- `result["candidates"][0]["content"]["parts"][0]["text"]`; any missing
key, wrong shape, or non-string text gives `none` (in Python a `KeyError`
or `TypeError`). -/
def extractCandidateText (result : Json) : Option String := do
  let cands ← result.getKey "candidates"
  let c0 ← cands.getIdx 0
  let content ← c0.getKey "content"
  let parts ← content.getKey "parts"
  let p0 ← parts.getIdx 0
  let t ← p0.getKey "text"
  t.asString

/-- `get_conversational_response`: fail fast when the key is absent, build
the payload, call the provider, and parse; the bare `except:` around the
candidate extraction substitutes the fixed fallback reply.  The HTTP status
of the response is never consulted. -/
def get_conversational_response
    (apiKeyPresent : Bool) (loads : String → Option Json)
    (provider : GeminiPayload → HttpResponse)
    (chat_history : List (String × String)) (current_text : String) :
    Except String Json :=
  if !apiKeyPresent then .error "GEMINI_API_KEY missing"
  else
    let gemini_messages := convert_chat_history_to_gemini_format chat_history
        ++ [⟨"user", [⟨current_text⟩]⟩]
    let payload : GeminiPayload :=
      ⟨CONVERSATIONAL_SYSTEM_PROMPT, gemini_messages, "application/json"⟩
    let response := provider payload
    match response.jsonBody with
    | none => .error "response.json() raised: body is not JSON"
    | some result =>
      match (extractCandidateText result).bind loads with
      | some data => .ok data
      | none => .ok (Json.obj [("reply_text", Json.str "Could you please repeat that?")])

/-- `/chat`: the endpoint returns `ai_data.get("reply_text", "Tell me
more.")` (the pydantic coercion of a non-string reply value is outside the
claims under verification and is not modelled). -/
def chat_endpoint
    (apiKeyPresent : Bool) (loads : String → Option Json)
    (provider : GeminiPayload → HttpResponse)
    (chat_history : List (String × String)) (current_text : String) :
    Except String Json :=
  match get_conversational_response apiKeyPresent loads provider
      chat_history current_text with
  | .error e => .error e
  | .ok ai_data =>
    match ai_data with
    | .obj fs => .ok ((fs.lookup "reply_text").getD (Json.str "Tell me more."))
    | _ => .error "AttributeError: object has no attribute get"

/-- The control flow of `get_flowchart_response` up to the outbound call:
missing key, heuristic short-circuit, or a provider call with the built
payload. -/
inductive FlowDecision where
  | configError : String → FlowDecision
  | shortCircuit : List (String × Json) → FlowDecision
  | callProvider : GeminiPayload → FlowDecision

def flowchart_decision (apiKeyPresent : Bool)
    (chat_history : List (String × String)) : FlowDecision :=
  if !apiKeyPresent then .configError "GEMINI_API_KEY missing"
  else
    let v := validate_information_sufficiency chat_history
    let is_sufficient := v.1
    let missing_items := v.2
    if !is_sufficient then
      .shortCircuit [("error",
        Json.str ("I still need a bit more info: " ++ pyJoinStr ", " missing_items))]
    else
      let prompt_modifier :=
        if missing_items.isEmpty then ""
        else "Note: Information about " ++ pyJoinStr ", " missing_items ++
          " is missing. Please suggest reasonable defaults based on the Event Type."
      let gemini_messages := convert_chat_history_to_gemini_format chat_history
          ++ [⟨"user", [⟨final_prompt prompt_modifier⟩]⟩]
      .callProvider ⟨FLOWCHART_SYSTEM_PROMPT, gemini_messages, "application/json"⟩

/-- `get_flowchart_response`: there is no `try` around the flowchart call,
so an extraction or parse failure escapes as an exception; the HTTP status
of the response is never consulted. -/
def get_flowchart_response
    (apiKeyPresent : Bool) (loads : String → Option Json)
    (provider : GeminiPayload → HttpResponse)
    (chat_history : List (String × String)) : Except String Json :=
  match flowchart_decision apiKeyPresent chat_history with
  | .configError d => .error d
  | .shortCircuit data => .ok (.obj data)
  | .callProvider payload =>
    let response := provider payload
    match response.jsonBody with
    | none => .error "response.json() raised: body is not JSON"
    | some result =>
      match (extractCandidateText result).bind loads with
      | some j => .ok j
      | none => .error "KeyError or json.JSONDecodeError while extracting candidate"

/-- Python's membership test `"k" in x` compares a string key against a
dict's keys, a list's elements, or a string's substrings; `x["k"]` then
raises `TypeError` on a list or string.  `generate_flowchart_endpoint`
shapes the parsed value through the three-way branch. -/
def generate_flowchart_endpoint
    (apiKeyPresent : Bool) (loads : String → Option Json)
    (provider : GeminiPayload → HttpResponse)
    (chat_history : List (String × String)) : Except String FlowchartResponse :=
  match get_flowchart_response apiKeyPresent loads provider chat_history with
  | .error e => .error e
  | .ok ai_data =>
    match ai_data with
    | .obj fs => .ok (shape_flowchart fs)
    | .arr xs =>
      if xs.any (fun x => match x with | .str t => t == "error" | _ => false) then
        .error "TypeError: list indices must be integers or slices, not str"
      else if xs.any (fun x => match x with | .str t => t == "updated_plan_json" | _ => false) then
        .error "TypeError: list indices must be integers or slices, not str"
      else .ok ⟨none, some (Json.str "Failed to generate plan.")⟩
    | .str s =>
      if pySubstr "error".data s.data then
        .error "TypeError: string indices must be integers"
      else if pySubstr "updated_plan_json".data s.data then
        .error "TypeError: string indices must be integers"
      else .ok ⟨none, some (Json.str "Failed to generate plan.")⟩
    | _ => .error "TypeError: argument of type is not iterable"

theorem append_ne_empty_of_ne {s : String} (t : String) (hs : s.data ≠ []) :
    s ++ t ≠ "" := by
  intro hEq
  have hd := congrArg String.data hEq
  rw [data_append] at hd
  rcases List.append_eq_nil.mp hd with ⟨h1, -⟩
  exact hs h1

/-- C4: when the history contains no event-type keyword, the heuristic
short-circuits the `/generate-flowchart` pipeline before the provider
gateway: the decision is never a provider call, and — for every `loads`
and every provider — the endpoint answers with a null plan and the
non-empty error string listing the missing items. -/
theorem insufficient_short_circuits (h : List (String × String))
    (hev : kwAny event_keywords (fullConversation h) = false) :
    (∀ p, flowchart_decision true h ≠ .callProvider p) ∧
    (∀ (loads : String → Option Json) (provider : GeminiPayload → HttpResponse),
      generate_flowchart_endpoint true loads provider h =
        .ok ⟨none, some (Json.str ("I still need a bit more info: " ++
          pyJoinStr ", " (validate_information_sufficiency h).2))⟩) ∧
    ("I still need a bit more info: " ++
      pyJoinStr ", " (validate_information_sufficiency h).2) ≠ "" := by
  have hmem : "event type" ∈ (validate_information_sufficiency h).2 := by
    rw [validate_snd, mem_missingOf]
    exact Or.inl ⟨hev, rfl⟩
  have hsuff : (validate_information_sufficiency h).1 = false := by
    cases hb : (validate_information_sufficiency h).1
    · rfl
    · exact absurd ((validate_ready_iff h).mp hb) (fun hne => hne hmem)
  have hne : ("I still need a bit more info: " ++
      pyJoinStr ", " (validate_information_sufficiency h).2) ≠ "" :=
    append_ne_empty_of_ne _ (by decide)
  have hdec : flowchart_decision true h =
      .shortCircuit [("error", Json.str ("I still need a bit more info: " ++
        pyJoinStr ", " (validate_information_sufficiency h).2))] := by
    unfold flowchart_decision
    dsimp only
    rw [hsuff]
    simp
  have htruthy : errorTruthy [("error", Json.str ("I still need a bit more info: " ++
      pyJoinStr ", " (validate_information_sufficiency h).2))] = true := by
    unfold errorTruthy
    simp only [List.lookup]
    simp [Json.truthy, bne_iff_ne, hne]
  refine ⟨?_, ?_, hne⟩
  · intro p hp
    rw [hdec] at hp
    cases hp
  · intro loads provider
    unfold generate_flowchart_endpoint get_flowchart_response
    rw [hdec]
    dsimp only
    unfold shape_flowchart
    rw [htruthy]
    simp [List.lookup]

/-- Witness for C4 at the concrete history `{"01_user": "hello"}` (no
event-type keyword), with a provider stub and a trivial decoder. -/
theorem insufficient_short_circuits_witness :
    generate_flowchart_endpoint true (fun _ => none) (fun _ => ⟨200, none⟩)
        [("01_user", "hello")] =
      .ok ⟨none, some (Json.str ("I still need a bit more info: " ++
        pyJoinStr ", "
          (validate_information_sufficiency [("01_user", "hello")]).2))⟩ :=
  (insufficient_short_circuits [("01_user", "hello")] (by decide)).2.1
    (fun _ => none) (fun _ => ⟨200, none⟩)

/-- C5 as stated is false: on an upstream non-2xx response (here status 503
with a JSON error body), the `/chat` pipeline does not fail with an
HTTP 500 carrying the upstream status and body — it returns HTTP 200 with
the fixed fallback reply, because the active code never consults the
status code. -/
theorem transport_error_500_refuted :
    ¬ (200 ≤ (503 : Nat) ∧ (503 : Nat) < 300) ∧
    chat_endpoint true (fun _ => none)
        (fun _ => ⟨503, some (Json.obj [("error", Json.str "Service Unavailable")])⟩)
        [] "Hi" =
      .ok (Json.str "Could you please repeat that?") := by
  constructor
  · decide
  · rfl

/-- C5 (amended): neither pipeline inspects the upstream HTTP status — the
endpoint outcome depends only on the response body; whenever candidate
extraction or the inner JSON parse fails, `/chat` degrades to the fixed
fallback reply instead of failing; and on the plan path (a sufficient
history, so the provider is actually called) the same failure escapes
`/generate-flowchart` as an unhandled exception — a generic 500 carrying
neither the upstream status nor the body. -/
theorem status_ignored (loads : String → Option Json) (body : Option Json)
    (s₁ s₂ : Nat) (h : List (String × String)) (cur : String) :
    (chat_endpoint true loads (fun _ => ⟨s₁, body⟩) h cur =
      chat_endpoint true loads (fun _ => ⟨s₂, body⟩) h cur) ∧
    (generate_flowchart_endpoint true loads (fun _ => ⟨s₁, body⟩) h =
      generate_flowchart_endpoint true loads (fun _ => ⟨s₂, body⟩) h) ∧
    (∀ r, body = some r → (extractCandidateText r).bind loads = none →
      chat_endpoint true loads (fun _ => ⟨s₁, body⟩) h cur =
        .ok (Json.str "Could you please repeat that?")) ∧
    (∀ r, body = some r → (extractCandidateText r).bind loads = none →
      (validate_information_sufficiency h).1 = true →
      generate_flowchart_endpoint true loads (fun _ => ⟨s₁, body⟩) h =
        .error "KeyError or json.JSONDecodeError while extracting candidate") := by
  refine ⟨rfl, rfl, ?_, ?_⟩
  · intro r hb hex
    subst hb
    unfold chat_endpoint get_conversational_response
    simp only [Bool.not_true, Bool.false_eq_true, if_false]
    rw [hex]
    simp [List.lookup]
  · intro r hb hex hsuf
    subst hb
    unfold generate_flowchart_endpoint get_flowchart_response flowchart_decision
    dsimp only
    rw [hsuf]
    simp only [Bool.not_true, Bool.false_eq_true, if_false]
    rw [hex]

/-- Witness for C5 at concrete inputs: status 503, bodies with no
candidates, and a decoder that never succeeds — `/chat` answers with the
fallback reply, and `/generate-flowchart` (on the sufficient history
`{"01_user": "wedding"}`) with the escaping exception. -/
theorem status_ignored_witness :
    (chat_endpoint true (fun _ => none) (fun _ => ⟨503, some (Json.obj [])⟩)
        [] "Hi" =
      .ok (Json.str "Could you please repeat that?")) ∧
    (generate_flowchart_endpoint true (fun _ => none)
        (fun _ => ⟨503, some (Json.obj [])⟩) [("01_user", "wedding")] =
      .error "KeyError or json.JSONDecodeError while extracting candidate") :=
  ⟨(status_ignored (fun _ => none) (some (Json.obj [])) 503 404 [] "Hi").2.2.1
      (Json.obj []) rfl rfl,
   (status_ignored (fun _ => none) (some (Json.obj [])) 503 404
        [("01_user", "wedding")] "Hi").2.2.2
      (Json.obj []) rfl rfl (by decide)⟩

end EventFlow
